import Mathlib

/-!
Shallow embedding of the capture/record/upload orchestration of the
Gen_AI_mock_interview repository.

The repository contains several implementations of the same flow; each is
embedded in its own namespace, translated directly from its source file:

* `VTT`    — the canonical combined webcam/upload component
             (second component of `src/src/VideoToText.tsx`);
* `AVW`    — the earlier "AV Word Classifier" variant (`src/unnamed/part_000`);
* `WBC`    — the webcam-only variant (`src/src/VideoToTextWebcam.tsx`);
* `API`    — the audio transcription service client (`src/src/services/api.ts`);
* `ATT`    — the audio-to-text file selection component (`src/unnamed/part_003`);
* `RecApp` — the plain media recorder app (`src/src/App.tsx`).

Media streams and recorded blobs are identified by allocation numbers; each
component state carries the list `liveStreams` of acquired streams whose
tracks have not been stopped, so that "no dangling stream" is expressible.
Asynchronous operations (`getUserMedia`, `fetch`) are modelled by passing
their outcome as an explicit parameter; React state setters become explicit
record updates applied in program order.
-/

/-- Recording status of a capture component: `'idle' | 'recording' | 'stopped'`. -/
inductive RecordingStatus where
  | idle
  | recording
  | stopped
  deriving DecidableEq, Repr

/-- Input mode of the combined component: `'webcam' | 'upload'`. -/
inductive InputMode where
  | webcam
  | upload
  deriving DecidableEq, Repr

/-- Outcome of a `navigator.mediaDevices.getUserMedia` request: the browser
either grants a fresh stream or rejects (denial / no hardware). -/
inductive AcquireOutcome where
  | granted
  | denied
  deriving DecidableEq, Repr

/-- Provenance of a held media artifact (spec terminology): produced by live
recording or by local file selection. -/
inductive Provenance where
  | recorded
  | uploaded
  deriving DecidableEq, Repr

/-- Name and byte size of a local file offered to a file input. -/
structure FileMeta where
  name : String
  size : Nat
  deriving DecidableEq, Repr

/-- Result of a `fetch` to the video transcription endpoint: either an HTTP
response (status plus the JSON body fields the components read) or a
transport-level failure whose `Error` carries a message. -/
inductive FetchResult where
  | response (status : Nat)
      (detail model_prediction whisper_transcription : Option String)
  | networkError (message : String)
  deriving DecidableEq, Repr

/-- `response.ok`: the HTTP status is in the 2xx range. -/
def httpOk (status : Nat) : Bool :=
  decide (200 ≤ status ∧ status < 300)

/-- JavaScript `x || d` on a possibly-absent string field: `undefined` and the
empty string are falsy and fall through to the default. -/
def jsOrDefault : Option String → String → String
  | some s, d => if s = "" then d else s
  | none, d => d

/-- React state and refs shared by the combined webcam/upload components
(`VideoToText.tsx` second component, and the `part_000` variant).
`mediaStream` is `mediaStreamRef.current`; `recorder` is whether
`recorderRef.current` is set; `videoSrcObject`/`videoSrcUrl` model the video
element's `srcObject` and `src`; `liveStreams` records acquired streams whose
tracks have not yet been stopped; `nextStreamId`/`nextBlobId` are allocation
counters; `acquireAttempts` counts calls to `getUserMedia`. -/
structure CompState where
  status : RecordingStatus
  inputMode : InputMode
  hasPermissions : Bool
  permissionError : String
  transcription : String
  whisperText : String
  isProcessing : Bool
  uploadedFile : Option FileMeta
  lastRecording : Option Nat
  recorder : Bool
  mediaStream : Option Nat
  videoSrcObject : Option Nat
  videoSrcUrl : String
  liveStreams : List Nat
  nextStreamId : Nat
  nextBlobId : Nat
  acquireAttempts : Nat
  deriving DecidableEq, Repr

namespace VTT

/-- `stopMediaStream` (`VideoToText.tsx` lines 201–211): stops every track of
the current stream, clears the ref, detaches the video element and drops the
permission flag. -/
def stopMediaStream (s : CompState) : CompState :=
  { s with
      liveStreams :=
        match s.mediaStream with
        | some i => s.liveStreams.filter (fun j => j != i)
        | none => s.liveStreams,
      mediaStream := none,
      videoSrcObject := none,
      hasPermissions := false }

/-- `requestPermissions` (`VideoToText.tsx` lines 225–254): first calls
`stopMediaStream()` ("Stop any existing streams"), then awaits `getUserMedia`;
on success stores the fresh stream, sets the permission flag, clears any
uploaded file and binds the preview; on denial stores the error message. -/
def requestPermissions (o : AcquireOutcome) (s : CompState) : CompState :=
  let s1 := stopMediaStream s
  match o with
  | .granted =>
      { s1 with
          permissionError := "",
          mediaStream := some s1.nextStreamId,
          liveStreams := s1.nextStreamId :: s1.liveStreams,
          hasPermissions := true,
          uploadedFile := none,
          videoSrcObject := some s1.nextStreamId,
          nextStreamId := s1.nextStreamId + 1,
          acquireAttempts := s1.acquireAttempts + 1 }
  | .denied =>
      { s1 with
          permissionError :=
            "Failed to access camera/microphone. Please grant permissions and try again.",
          hasPermissions := false,
          acquireAttempts := s1.acquireAttempts + 1 }

/-- Start of `processVideo` (`VideoToText.tsx` lines 282–285): mark the
submission in flight and clear the previous results. -/
def processVideoStart (s : CompState) : CompState :=
  { s with isProcessing := true, transcription := "", whisperText := "" }

/-- Completion of `processVideo` (`VideoToText.tsx` lines 287–317): on a 2xx
response store both body fields (with JS `||` placeholders), on a non-2xx
response throw `Error(data.detail || "Server error: <status>")`, on a
transport failure keep the `fetch` error; every thrown error is caught and
stored as the fixed sentinel prediction plus an `"Error: <message>"`
transcription; `finally` clears the in-flight flag. -/
def processVideoFinish (r : FetchResult) (s : CompState) : CompState :=
  match r with
  | .networkError msg =>
      { s with
          transcription := "Processing Failed.",
          whisperText := "Error: " ++ msg,
          isProcessing := false }
  | .response status detail mp wt =>
      if httpOk status then
        { s with
            transcription := jsOrDefault mp "No AV Prediction received.",
            whisperText := jsOrDefault wt "No Whisper Transcription received.",
            isProcessing := false }
      else
        { s with
            transcription := "Processing Failed.",
            whisperText :=
              "Error: " ++ jsOrDefault detail ("Server error: " ++ toString status),
            isProcessing := false }

/-- `processVideo` run to completion with fetch outcome `r`. -/
def processVideo (r : FetchResult) (s : CompState) : CompState :=
  processVideoFinish r (processVideoStart s)

/-- `stopRecording` (`VideoToText.tsx` lines 319–333): a no-op when no
recorder is held; otherwise finalizes the blob, saves it as the last
recording, processes it (with fetch outcome `r`) and clears the recorder. -/
def stopRecording (r : FetchResult) (s : CompState) : CompState :=
  if s.recorder then
    let s1 := { s with
        status := .stopped,
        lastRecording := some s.nextBlobId,
        nextBlobId := s.nextBlobId + 1 }
    let s2 := processVideo r s1
    { s2 with recorder := false }
  else s

/-- The "clean up previous mode states" block of `handleModeChange`
(`VideoToText.tsx` lines 371–379): install the new mode, stop the stream, and
clear the uploaded file, results, last recording and video source, resetting
the status to idle. -/
def modeSwitchCleanup (m : InputMode) (s : CompState) : CompState :=
  let s1 := { s with inputMode := m }
  let s2 := stopMediaStream s1
  { s2 with
      uploadedFile := none,
      status := .idle,
      transcription := "",
      whisperText := "",
      lastRecording := none,
      videoSrcUrl := "" }

/-- `handleModeChange` (`VideoToText.tsx` lines 364–385): refused (alert and
early return) while recording; otherwise performs the cleanup block and —
when entering webcam mode — eagerly re-requests permissions (with acquisition
outcome `o`). -/
def handleModeChange (m : InputMode) (o : AcquireOutcome) (s : CompState) : CompState :=
  if s.status = .recording then s
  else if m = .webcam then requestPermissions o (modeSwitchCleanup m s)
  else modeSwitchCleanup m s

/-- `handleFileChange` (`VideoToText.tsx` lines 337–352): stores any offered
file with no extension or size validation whatsoever, clears both result
texts and the last recording, stops the webcam stream and points the video
element at the file's object URL. -/
def handleFileChange (file : Option FileMeta) (s : CompState) : CompState :=
  match file with
  | none => s
  | some f =>
      let s1 := { s with
          uploadedFile := some f,
          transcription := "",
          whisperText := "",
          lastRecording := none }
      let s2 := stopMediaStream s1
      { s2 with videoSrcUrl := "objectURL:" ++ f.name }

/-- The previously active stream of `s` (if any) has had all of its tracks
stopped in `t`. -/
def prevStreamStopped (s t : CompState) : Bool :=
  match s.mediaStream with
  | some i => t.liveStreams.all (fun j => j != i)
  | none => true

/-- Operations of the canonical component that create or destroy device
leases: acquisition, release, and mode switch. -/
inductive Op where
  | acquire (o : AcquireOutcome)
  | release
  | modeSwitch (m : InputMode) (o : AcquireOutcome)
  deriving DecidableEq, Repr

/-- Initial React state of the canonical component. -/
def init : CompState :=
  { status := .idle,
    inputMode := .webcam,
    hasPermissions := false,
    permissionError := "",
    transcription := "",
    whisperText := "",
    isProcessing := false,
    uploadedFile := none,
    lastRecording := none,
    recorder := false,
    mediaStream := none,
    videoSrcObject := none,
    videoSrcUrl := "",
    liveStreams := [],
    nextStreamId := 0,
    nextBlobId := 0,
    acquireAttempts := 0 }

/-- Apply one device-lease operation of the canonical component. -/
def applyOp (s : CompState) : Op → CompState
  | .acquire o => requestPermissions o s
  | .release => stopMediaStream s
  | .modeSwitch m o => handleModeChange m o s

/-- Run a sequence of device-lease operations from the initial state. -/
def run (ops : List Op) : CompState :=
  ops.foldl applyOp init

/-- Stream-lease invariant of the canonical component: either no acquired
stream is live, or exactly the currently held stream is live. -/
def Inv (s : CompState) : Prop :=
  s.liveStreams = [] ∨ ∃ i, s.mediaStream = some i ∧ s.liveStreams = [i]

end VTT

namespace AVW

/-- `stopMediaStream` of the `part_000` variant (lines 27–36): same teardown
as the canonical component. -/
def stopMediaStream (s : CompState) : CompState :=
  { s with
      liveStreams :=
        match s.mediaStream with
        | some i => s.liveStreams.filter (fun j => j != i)
        | none => s.liveStreams,
      mediaStream := none,
      videoSrcObject := none,
      hasPermissions := false }

/-- `handleModeChange` of the `part_000` variant (lines 193–203): switches the
mode and cleans up unconditionally — unlike the canonical component there is
no `status === 'recording'` guard, and no eager re-acquisition. -/
def handleModeChange (m : InputMode) (s : CompState) : CompState :=
  let s1 := { s with inputMode := m }
  let s2 := stopMediaStream s1
  { s2 with
      uploadedFile := none,
      status := .idle,
      transcription := "",
      whisperText := "",
      lastRecording := none,
      videoSrcUrl := "" }

end AVW

namespace WBC

/-- Observable state of the webcam-only variant's submission path
(`VideoToTextWebcam.tsx`): the displayed transcription and the in-flight flag. -/
structure WState where
  transcription : String
  isProcessing : Bool
  deriving DecidableEq, Repr

/-- The error message of one submission attempt in `VideoToTextWebcam.tsx`
`processVideo` (lines 84–98), `none` on success: on a non-2xx response the
code throws `Error("HTTP error! status: <status>")` before ever reading the
response body, so the body's `detail` field is never consulted. -/
def attemptMessage : FetchResult → Option String
  | .networkError m => some m
  | .response status _ _ _ =>
      if httpOk status then none
      else some ("HTTP error! status: " ++ toString status)

/-- Start of `processVideo` in `VideoToTextWebcam.tsx`: only sets the
in-flight flag (previous transcription is not cleared here). -/
def processVideoStart (s : WState) : WState :=
  { s with isProcessing := true }

/-- Completion of `processVideo` in `VideoToTextWebcam.tsx` (lines 84–102):
on 2xx store only the Whisper transcription (with a placeholder), on any
failure store the fixed string `'Transcription failed.'`. -/
def processVideoFinish (r : FetchResult) (s : WState) : WState :=
  match r with
  | .networkError _ =>
      { s with transcription := "Transcription failed.", isProcessing := false }
  | .response status _ _ wt =>
      if httpOk status then
        { s with
            transcription := jsOrDefault wt "No Whisper output.",
            isProcessing := false }
      else
        { s with transcription := "Transcription failed.", isProcessing := false }

/-- `processVideo` of the webcam-only variant run to completion. -/
def processVideo (r : FetchResult) (s : WState) : WState :=
  processVideoFinish r (processVideoStart s)

end WBC

namespace API

/-- Result of a `fetch` to the audio transcription endpoint
(`src/src/services/api.ts`): an HTTP response whose 2xx body is `{ text }`,
or a transport failure. -/
inductive AudioFetch where
  | response (status : Nat) (text : String)
  | networkError (message : String)
  deriving DecidableEq, Repr

/-- The mock transcription `transcribeAudio` fabricates for a file
(`api.ts` lines 20–24). -/
def mockFileText (name : String) : String :=
  "Mock transcription for file: " ++ name ++
    ". This is a sample transcription that would come from your backend ML model. The actual implementation will connect to your Speech-to-Text API endpoint."

/-- `transcribeAudio` (`api.ts` lines 3–26): returns the parsed `{ text }`
body on a 2xx response; on a non-2xx response it throws, and on a transport
failure `fetch` rejects — but both are caught by the enclosing `catch`, which
returns the mock success text instead. The function never fails: its result
is always a transcription string. -/
def transcribeAudio (name : String) : AudioFetch → String
  | .response status text =>
      if httpOk status then text else mockFileText name
  | .networkError _ => mockFileText name

end API

namespace ATT

/-- React state of the audio-to-text component's file selection
(`src/unnamed/part_003`). -/
structure AState where
  selectedFile : Option FileMeta
  transcription : String
  isTranscribing : Bool
  deriving DecidableEq, Repr

/-- `acceptedFormats` (`part_003` line 47). -/
def acceptedFormats : List String := [".mp3", ".wav", ".m4a"]

/-- `maxFileSize` (`part_003` line 48): 50MB. -/
def maxFileSize : Nat := 50 * 1024 * 1024

/-- `file.name.toLowerCase()`, at the level of characters so that concrete
instances compute in the kernel. -/
def lowerName (name : String) : List Char :=
  name.data.map Char.toLower

/-- The format validation of `handleFileSelect`: the lower-cased file name
ends with one of the accepted extensions. -/
def extOk (name : String) : Bool :=
  acceptedFormats.any (fun fmt => fmt.data.isSuffixOf (lowerName name))

/-- Observable outcome of `handleFileSelect`: one of the two alert-and-return
rejections, or acceptance. -/
inductive SelectOutcome where
  | rejectedFormat
  | rejectedSize
  | accepted
  deriving DecidableEq, Repr

/-- `handleFileSelect` (`part_003` lines 57–74): format validation first, then
size validation; each violation alerts and returns without touching any state;
an accepted file is stored as the selected file and the previous transcription
is cleared. -/
def handleFileSelect (f : FileMeta) (s : AState) : AState × SelectOutcome :=
  if !(extOk f.name) then (s, .rejectedFormat)
  else if maxFileSize < f.size then (s, .rejectedSize)
  else ({ s with selectedFile := some f, transcription := "" }, .accepted)

/-- The artifact held by the audio component: its only artifact slot is the
locally selected file, whose provenance (spec terminology) is `uploaded`. -/
def heldArtifact (s : AState) : Option (FileMeta × Provenance) :=
  s.selectedFile.map (fun f => (f, Provenance.uploaded))

end ATT

namespace RecApp

/-- Recording mode of the plain recorder app (`src/src/App.tsx`). -/
inductive RecordingMode where
  | continuous
  | timed
  deriving DecidableEq, Repr

/-- React state of the plain recorder app (`App.tsx`), with the same
stream-allocation bookkeeping as `CompState`. -/
structure RState where
  mode : RecordingMode
  status : RecordingStatus
  hasPermissions : Bool
  permissionError : String
  mediaStream : Option Nat
  liveStreams : List Nat
  nextStreamId : Nat
  deriving DecidableEq, Repr

/-- `stopMediaStream` (`App.tsx` lines 51–60). -/
def stopMediaStream (s : RState) : RState :=
  { s with
      liveStreams :=
        match s.mediaStream with
        | some i => s.liveStreams.filter (fun j => j != i)
        | none => s.liveStreams,
      mediaStream := none,
      hasPermissions := false }

/-- `requestPermissions` (`App.tsx` lines 30–49): awaits `getUserMedia` and
stores the fresh stream — unlike the canonical component it does NOT call
`stopMediaStream` first, so a previously held stream is simply overwritten
with its tracks still running. -/
def requestPermissions (o : AcquireOutcome) (s : RState) : RState :=
  match o with
  | .granted =>
      { s with
          permissionError := "",
          mediaStream := some s.nextStreamId,
          liveStreams := s.nextStreamId :: s.liveStreams,
          nextStreamId := s.nextStreamId + 1,
          hasPermissions := true }
  | .denied =>
      { s with
          permissionError := "Failed to access camera/microphone. Please grant permissions.",
          hasPermissions := false }

/-- Initial React state of the plain recorder app. -/
def init : RState :=
  { mode := .continuous,
    status := .idle,
    hasPermissions := false,
    permissionError := "",
    mediaStream := none,
    liveStreams := [],
    nextStreamId := 0 }

end RecApp

/-- A stopped-and-processed canonical state holding a finished recording:
start state for the stale-response trace of claim C1. -/
def c1Start : CompState :=
  { status := .stopped,
    inputMode := .webcam,
    hasPermissions := true,
    permissionError := "",
    transcription := "",
    whisperText := "",
    isProcessing := false,
    uploadedFile := none,
    lastRecording := some 0,
    recorder := false,
    mediaStream := some 0,
    videoSrcObject := some 0,
    videoSrcUrl := "",
    liveStreams := [0],
    nextStreamId := 1,
    nextBlobId := 1,
    acquireAttempts := 1 }

/-- A `part_000` state in the middle of a recording: input for the
counterexample of claim C2. -/
def avwRecState : CompState :=
  { status := .recording,
    inputMode := .webcam,
    hasPermissions := true,
    permissionError := "",
    transcription := "",
    whisperText := "",
    isProcessing := false,
    uploadedFile := none,
    lastRecording := none,
    recorder := true,
    mediaStream := some 0,
    videoSrcObject := some 0,
    videoSrcUrl := "",
    liveStreams := [0],
    nextStreamId := 1,
    nextBlobId := 0,
    acquireAttempts := 1 }

/-- A canonical state with an uploaded file ready to process: used by the
witnesses of several claims. -/
def uploadReadyState : CompState :=
  { status := .idle,
    inputMode := .upload,
    hasPermissions := false,
    permissionError := "",
    transcription := "",
    whisperText := "",
    isProcessing := false,
    uploadedFile := some { name := "clip.mp4", size := 40 * 1024 * 1024 },
    lastRecording := none,
    recorder := false,
    mediaStream := none,
    videoSrcObject := none,
    videoSrcUrl := "objectURL",
    liveStreams := [],
    nextStreamId := 0,
    nextBlobId := 0,
    acquireAttempts := 0 }

/-- Empty initial state of the audio-to-text component. -/
def attInit : ATT.AState :=
  { selectedFile := none, transcription := "", isTranscribing := false }

/-- A canonical state holding a previous artifact, a last recording, results
and an active stream: input for the counterexample of claim C6. -/
def c6HeldState : CompState :=
  { status := .stopped,
    inputMode := .upload,
    hasPermissions := true,
    permissionError := "",
    transcription := "OLD PREDICTION",
    whisperText := "old transcription",
    isProcessing := false,
    uploadedFile := some { name := "interview.mp4", size := 1000 },
    lastRecording := some 0,
    recorder := false,
    mediaStream := some 0,
    videoSrcObject := some 0,
    videoSrcUrl := "",
    liveStreams := [0],
    nextStreamId := 1,
    nextBlobId := 1,
    acquireAttempts := 1 }

example : ATT.extOk "clip.mov" = false := by decide
example : ATT.extOk "CLIP.MP3" = true := by decide
example : httpOk 200 = true := by decide
example : httpOk 500 = false := by decide

/-- C1: the canonical component attaches no generation tag to an in-flight
submission. Evaluating the code on the failing trace — a submission started
in webcam mode (`processVideoStart`), the mode switched to upload while it is
in flight (`handleModeChange`, which clears the results), and the response
then resolving (`processVideoFinish`) — shows the stale response is applied:
it overwrites the cleared post-switch state with its prediction, contrary to
the claimed detect-and-discard behavior. -/
theorem stale_response_overwrites_state :
    (VTT.handleModeChange .upload .granted (VTT.processVideoStart c1Start)).transcription
        = "" ∧
    (VTT.handleModeChange .upload .granted (VTT.processVideoStart c1Start)).whisperText
        = "" ∧
    (VTT.handleModeChange .upload .granted (VTT.processVideoStart c1Start)).inputMode
        = .upload ∧
    (VTT.processVideoFinish (.response 200 none (some "HELLO") (some "hello there"))
        (VTT.handleModeChange .upload .granted (VTT.processVideoStart c1Start))).transcription
        = "HELLO" ∧
    (VTT.processVideoFinish (.response 200 none (some "HELLO") (some "hello there"))
        (VTT.handleModeChange .upload .granted (VTT.processVideoStart c1Start))).whisperText
        = "hello there" ∧
    (VTT.processVideoFinish (.response 200 none (some "HELLO") (some "hello there"))
        (VTT.handleModeChange .upload .granted (VTT.processVideoStart c1Start))).inputMode
        = .upload := by
  decide

/-- C2 (counterexample): in the `part_000` variant, `handleModeChange` has no
recording guard — invoked on a state that is mid-recording it is NOT refused:
the input mode changes, the stream is torn down, held results are cleared and
the status leaves `recording`, falsifying the claim for this cited
implementation. -/
theorem avw_mode_switch_during_recording_proceeds :
    (AVW.handleModeChange .upload avwRecState).inputMode = .upload ∧
    (AVW.handleModeChange .upload avwRecState).status = .idle ∧
    (AVW.handleModeChange .upload avwRecState).mediaStream = none ∧
    (AVW.handleModeChange .upload avwRecState).liveStreams = [] ∧
    AVW.handleModeChange .upload avwRecState ≠ avwRecState := by
  decide

/-- C2 (amended): in the canonical component, a mode switch requested while
the status is `recording` is refused (alert and early return): the state —
input mode, stream, held artifacts and results — is left completely
unchanged. -/
theorem mode_switch_refused_while_recording (s : CompState) (m : InputMode)
    (o : AcquireOutcome) (h : s.status = .recording) :
    VTT.handleModeChange m o s = s := by
  simp [VTT.handleModeChange, h]

/-- C2 (witness): the refusal theorem applied to a concrete mid-recording
state and a concrete switch request. -/
theorem mode_switch_refused_witness :
    VTT.handleModeChange .upload .granted avwRecState = avwRecState :=
  mode_switch_refused_while_recording avwRecState .upload .granted rfl

/-- C10: the canonical component records a failed submission in-band in the
success fields — the error branch stores the sentinel `'Processing Failed.'`
as the prediction and `'Error: <message>'` as the alternate transcription —
so a failure (here an HTTP 500 with detail `model overloaded`) produces
exactly the same exposed state as a successful 200 response whose prediction
text happens to equal the sentinel; the state type has no separate failed
component. -/
theorem failure_indistinguishable_from_sentinel_success :
    VTT.processVideo (.response 500 (some "model overloaded") none none) uploadReadyState
      = VTT.processVideo
          (.response 200 none (some "Processing Failed.") (some "Error: model overloaded"))
          uploadReadyState := by
  decide

/-- C4 (counterexample): in the webcam-only variant (`VideoToTextWebcam.tsx`),
a non-2xx response is turned into the generic `'HTTP error! status: <n>'`
message even when the body carries a structured `detail` field — on an HTTP
500 with detail `model overloaded` the attempt's message is the generic one,
not `model overloaded`, and the stored display text is the fixed
`'Transcription failed.'`, falsifying the claim for this cited
implementation. -/
theorem wbc_error_ignores_detail_field :
    WBC.attemptMessage (.response 500 (some "model overloaded") none none)
        = some "HTTP error! status: 500" ∧
    WBC.attemptMessage (.response 500 (some "model overloaded") none none)
        ≠ some "model overloaded" ∧
    (WBC.processVideo (.response 500 (some "model overloaded") none none)
        { transcription := "", isProcessing := false }).transcription
        = "Transcription failed." := by
  decide

/-- C4 (amended): in the canonical component, a non-2xx response fails the
attempt with the message taken from the body's `detail` field when it is
present (and non-empty), and with the generic `'Server error: <status>'`
message otherwise; in particular an HTTP 500 whose body is
`{"detail":"model overloaded"}` leaves the component in its failed display
state with the message `model overloaded` stored. -/
theorem error_message_from_detail_field (s : CompState) (status : Nat) (d : String)
    (mp wt : Option String) (hbad : httpOk status = false) (hd : d ≠ "") :
    (VTT.processVideo (.response status (some d) mp wt) s).whisperText
        = "Error: " ++ d ∧
    (VTT.processVideo (.response status none mp wt) s).whisperText
        = "Error: " ++ ("Server error: " ++ toString status) ∧
    (VTT.processVideo (.response status (some d) mp wt) s).transcription
        = "Processing Failed." ∧
    (VTT.processVideo (.response 500 (some "model overloaded") mp wt) s).transcription
        = "Processing Failed." ∧
    (VTT.processVideo (.response 500 (some "model overloaded") mp wt) s).whisperText
        = "Error: model overloaded" := by
  have h : ¬(200 ≤ status ∧ status < 300) := of_decide_eq_false hbad
  have h5 : ¬(200 ≤ 500 ∧ 500 < 300) := by omega
  refine ⟨?_, ?_, ?_, ?_, ?_⟩ <;>
    simp [VTT.processVideo, VTT.processVideoStart, VTT.processVideoFinish,
      jsOrDefault, httpOk, h, h5, hd]

/-- C4 (witness): the amended theorem applied to scenario B — an HTTP 500
response with body detail `model overloaded` on the upload-ready state. -/
theorem error_message_from_detail_field_witness :
    (VTT.processVideo (.response 500 (some "model overloaded")
        (some "HELLO") none) uploadReadyState).whisperText
        = "Error: model overloaded" ∧
    (VTT.processVideo (.response 500 none (some "HELLO") none)
        uploadReadyState).whisperText
        = "Error: " ++ ("Server error: " ++ toString 500) ∧
    (VTT.processVideo (.response 500 (some "model overloaded")
        (some "HELLO") none) uploadReadyState).transcription
        = "Processing Failed." ∧
    (VTT.processVideo (.response 500 (some "model overloaded")
        (some "HELLO") none) uploadReadyState).transcription
        = "Processing Failed." ∧
    (VTT.processVideo (.response 500 (some "model overloaded")
        (some "HELLO") none) uploadReadyState).whisperText
        = "Error: model overloaded" :=
  error_message_from_detail_field uploadReadyState 500 "model overloaded"
    (some "HELLO") none (by decide) (by decide)

/-- C5 (counterexample): the audio service client `transcribeAudio`
(`api.ts`) does NOT surface a failed submission: both an HTTP 500 response
and a transport failure are swallowed by its `catch`, which returns the
fabricated mock transcription as an ordinary success — a substituted success
result, falsifying the claim for this cited implementation. -/
theorem transcribe_audio_substitutes_mock_success :
    API.transcribeAudio "clip.mp3" (.response 500 "") = API.mockFileText "clip.mp3" ∧
    API.transcribeAudio "clip.mp3" (.networkError "Failed to fetch")
        = API.mockFileText "clip.mp3" ∧
    "Mock transcription for file: clip.mp3".data.isPrefixOf
        (API.mockFileText "clip.mp3").data = true := by
  refine ⟨rfl, rfl, ?_⟩
  decide

/-- C5 (amended): in the canonical component a failed submission — a
transport failure or an error response — surfaces directly as the terminal
failed display state for that attempt, with the failure message stored and
the in-flight flag cleared, and with no automatic retry and no crash (the
transition is total); the audio service client `transcribeAudio`, by
contrast, substitutes the fixed mock success transcription for every
failure. -/
theorem failed_submission_surfaces (s : CompState) (msg : String) (status : Nat)
    (d : Option String) (name text m2 : String) (hbad : httpOk status = false) :
    (VTT.processVideo (.networkError msg) s).transcription = "Processing Failed." ∧
    (VTT.processVideo (.networkError msg) s).whisperText = "Error: " ++ msg ∧
    (VTT.processVideo (.networkError msg) s).isProcessing = false ∧
    (VTT.processVideo (.response status d none none) s).transcription
        = "Processing Failed." ∧
    (VTT.processVideo (.response status d none none) s).isProcessing = false ∧
    API.transcribeAudio name (.response status text) = API.mockFileText name ∧
    API.transcribeAudio name (.networkError m2) = API.mockFileText name := by
  have h : ¬(200 ≤ status ∧ status < 300) := of_decide_eq_false hbad
  refine ⟨rfl, rfl, rfl, ?_, ?_, ?_, rfl⟩ <;>
    simp [VTT.processVideo, VTT.processVideoStart, VTT.processVideoFinish,
      API.transcribeAudio, API.mockFileText, httpOk, h]

/-- C5 (witness): the surfacing theorem applied to a concrete transport
failure and a concrete HTTP 500 on the upload-ready state. -/
theorem failed_submission_surfaces_witness :
    (VTT.processVideo (.networkError "Failed to fetch") uploadReadyState).transcription
        = "Processing Failed." ∧
    (VTT.processVideo (.networkError "Failed to fetch") uploadReadyState).whisperText
        = "Error: " ++ "Failed to fetch" ∧
    (VTT.processVideo (.networkError "Failed to fetch") uploadReadyState).isProcessing
        = false ∧
    (VTT.processVideo (.response 500 (some "model overloaded") none none)
        uploadReadyState).transcription = "Processing Failed." ∧
    (VTT.processVideo (.response 500 (some "model overloaded") none none)
        uploadReadyState).isProcessing = false ∧
    API.transcribeAudio "clip.mp3" (.response 500 "") = API.mockFileText "clip.mp3" ∧
    API.transcribeAudio "clip.mp3" (.networkError "Failed to fetch")
        = API.mockFileText "clip.mp3" :=
  failed_submission_surfaces uploadReadyState "Failed to fetch" 500
    (some "model overloaded") "clip.mp3" "" "Failed to fetch" (by decide)

/-- C6 (counterexample): the canonical component's file-selection handler
`handleFileChange` performs no validation at all: `clip.mov`, whose extension
is outside the repository's configured accepted set and whose 60MB size
exceeds the configured 50MB maximum, is not rejected — it is stored as the
new uploaded file, while the previously held artifact is replaced and the
held results, last recording and active stream are all mutated, falsifying
the universal claim for this cited implementation. -/
theorem vtt_file_change_accepts_anything :
    ATT.extOk "clip.mov" = false ∧
    ATT.maxFileSize < 60 * 1024 * 1024 ∧
    c6HeldState.uploadedFile = some { name := "interview.mp4", size := 1000 } ∧
    c6HeldState.transcription = "OLD PREDICTION" ∧
    c6HeldState.lastRecording = some 0 ∧
    c6HeldState.mediaStream = some 0 ∧
    (VTT.handleFileChange (some { name := "clip.mov", size := 60 * 1024 * 1024 })
        c6HeldState).uploadedFile
        = some { name := "clip.mov", size := 60 * 1024 * 1024 } ∧
    (VTT.handleFileChange (some { name := "clip.mov", size := 60 * 1024 * 1024 })
        c6HeldState).transcription = "" ∧
    (VTT.handleFileChange (some { name := "clip.mov", size := 60 * 1024 * 1024 })
        c6HeldState).lastRecording = none ∧
    (VTT.handleFileChange (some { name := "clip.mov", size := 60 * 1024 * 1024 })
        c6HeldState).mediaStream = none := by
  decide

/-- C6 (amended): `handleFileSelect` of the audio-to-text component rejects a
file whose (lower-cased) extension is not in the accepted set, and a file
whose byte size exceeds the configured maximum, leaving the previously held
selected file and transcription completely unchanged; a file passing both
checks is stored as the newly selected file (the held artifact of provenance
`uploaded`), clearing the previous transcription. (The canonical video
component's `handleFileChange`, by contrast, validates nothing — see the
counterexample.) -/
theorem file_select_validation_clean (f : FileMeta) (s : ATT.AState) :
    (ATT.extOk f.name = false →
        ATT.handleFileSelect f s = (s, .rejectedFormat)) ∧
    (ATT.extOk f.name = true → ATT.maxFileSize < f.size →
        ATT.handleFileSelect f s = (s, .rejectedSize)) ∧
    (ATT.extOk f.name = true → f.size ≤ ATT.maxFileSize →
        ATT.handleFileSelect f s
            = ({ s with selectedFile := some f, transcription := "" }, .accepted) ∧
        ATT.heldArtifact (ATT.handleFileSelect f s).1 = some (f, .uploaded)) := by
  refine ⟨?_, ?_, ?_⟩
  · intro h
    simp [ATT.handleFileSelect, h]
  · intro h hsz
    simp [ATT.handleFileSelect, h, hsz]
  · intro h hsz
    have hns : ¬ ATT.maxFileSize < f.size := not_lt.mpr hsz
    constructor
    · simp [ATT.handleFileSelect, h, hns]
    · simp [ATT.handleFileSelect, ATT.heldArtifact, h, hns]

/-- C6 (witness): scenario C — `clip.mov` against accepted set
`[.mp3,.wav,.m4a]` is rejected with the state unchanged — and a valid
40MB `clip.mp3` stored as the uploaded-provenance artifact. -/
theorem file_select_validation_clean_witness :
    ATT.handleFileSelect { name := "clip.mov", size := 1000 } attInit
        = (attInit, .rejectedFormat) ∧
    ATT.handleFileSelect { name := "clip.mp3", size := 40 * 1024 * 1024 } attInit
        = ({ attInit with
              selectedFile := some { name := "clip.mp3", size := 40 * 1024 * 1024 },
              transcription := "" }, .accepted) ∧
    ATT.heldArtifact
        (ATT.handleFileSelect { name := "clip.mp3", size := 40 * 1024 * 1024 } attInit).1
        = some ({ name := "clip.mp3", size := 40 * 1024 * 1024 }, .uploaded) :=
  ⟨(file_select_validation_clean { name := "clip.mov", size := 1000 } attInit).1
      (by decide),
   ((file_select_validation_clean { name := "clip.mp3", size := 40 * 1024 * 1024 }
      attInit).2.2 (by decide) (by decide)).1,
   ((file_select_validation_clean { name := "clip.mp3", size := 40 * 1024 * 1024 }
      attInit).2.2 (by decide) (by decide)).2⟩

/-- C8: on a 2xx response, the canonical component stores both body fields
verbatim when they are present and non-empty (JS `||` treats the empty
string like absence), clears the in-flight flag and performs no failure
transition (the status is untouched); when both fields are absent the
component still takes the success branch, storing the fixed placeholder
texts — a valid success state, not an error. -/
theorem success_response_stored_verbatim (s : CompState) (status : Nat)
    (d : Option String) (p a : String) (hok : httpOk status = true)
    (hp : p ≠ "") (ha : a ≠ "") :
    (VTT.processVideo (.response status d (some p) (some a)) s).transcription = p ∧
    (VTT.processVideo (.response status d (some p) (some a)) s).whisperText = a ∧
    (VTT.processVideo (.response status d (some p) (some a)) s).isProcessing = false ∧
    (VTT.processVideo (.response status d (some p) (some a)) s).status = s.status ∧
    (VTT.processVideo (.response status d none none) s).transcription
        = "No AV Prediction received." ∧
    (VTT.processVideo (.response status d none none) s).whisperText
        = "No Whisper Transcription received." ∧
    (VTT.processVideo (.response status d none none) s).status = s.status := by
  have h : 200 ≤ status ∧ status < 300 := of_decide_eq_true hok
  refine ⟨?_, ?_, ?_, ?_, ?_, ?_, ?_⟩ <;>
    simp [VTT.processVideo, VTT.processVideoStart, VTT.processVideoFinish,
      jsOrDefault, httpOk, h, hp, ha]

/-- C8 (witness): scenario A — the response
`{model_prediction: "HELLO", whisper_transcription: "hello there"}` stored
verbatim on the upload-ready state. -/
theorem success_response_stored_verbatim_witness :
    (VTT.processVideo (.response 200 none (some "HELLO") (some "hello there"))
        uploadReadyState).transcription = "HELLO" ∧
    (VTT.processVideo (.response 200 none (some "HELLO") (some "hello there"))
        uploadReadyState).whisperText = "hello there" ∧
    (VTT.processVideo (.response 200 none (some "HELLO") (some "hello there"))
        uploadReadyState).isProcessing = false ∧
    (VTT.processVideo (.response 200 none (some "HELLO") (some "hello there"))
        uploadReadyState).status = uploadReadyState.status ∧
    (VTT.processVideo (.response 200 none none none) uploadReadyState).transcription
        = "No AV Prediction received." ∧
    (VTT.processVideo (.response 200 none none none) uploadReadyState).whisperText
        = "No Whisper Transcription received." ∧
    (VTT.processVideo (.response 200 none none none) uploadReadyState).status
        = uploadReadyState.status :=
  success_response_stored_verbatim uploadReadyState 200 none "HELLO" "hello there"
    (by decide) (by decide) (by decide)

/-- C9: `stopMediaStream` (the release of the capture device) is idempotent
and touches no other component: the recording status, input mode, held
artifacts, results and in-flight flag are all preserved; and `stopRecording`
on a component holding no recorder (not recording, or already finalized) is
a complete no-op. -/
theorem release_and_stop_idempotent (s : CompState) (r : FetchResult) :
    VTT.stopMediaStream (VTT.stopMediaStream s) = VTT.stopMediaStream s ∧
    (VTT.stopMediaStream s).status = s.status ∧
    (VTT.stopMediaStream s).inputMode = s.inputMode ∧
    (VTT.stopMediaStream s).transcription = s.transcription ∧
    (VTT.stopMediaStream s).whisperText = s.whisperText ∧
    (VTT.stopMediaStream s).uploadedFile = s.uploadedFile ∧
    (VTT.stopMediaStream s).lastRecording = s.lastRecording ∧
    (VTT.stopMediaStream s).recorder = s.recorder ∧
    (VTT.stopMediaStream s).isProcessing = s.isProcessing ∧
    (s.recorder = false → VTT.stopRecording r s = s) := by
  refine ⟨?_, rfl, rfl, rfl, rfl, rfl, rfl, rfl, rfl, ?_⟩
  · cases h : s.mediaStream <;> simp [VTT.stopMediaStream, h]
  · intro h
    simp [VTT.stopRecording, h]

/-- C9 (witness): the idempotence theorem applied to the concrete
upload-ready state, which holds no recorder and no active stream. -/
theorem release_and_stop_idempotent_witness :
    VTT.stopRecording (.networkError "x") uploadReadyState = uploadReadyState ∧
    VTT.stopMediaStream (VTT.stopMediaStream uploadReadyState)
        = VTT.stopMediaStream uploadReadyState :=
  ⟨(release_and_stop_idempotent uploadReadyState (.networkError "x")).2.2.2.2.2.2.2.2.2
      rfl,
   (release_and_stop_idempotent uploadReadyState (.networkError "x")).1⟩

/-- Filtering a list to the elements different from `i` leaves only elements
different from `i`. -/
theorem all_bne_filter (i : Nat) (l : List Nat) :
    (l.filter (fun j => j != i)).all (fun j => j != i) = true := by
  rw [List.all_eq_true]
  intro x hx
  exact (List.mem_filter.mp hx).2

/-- C7: a permitted mode switch in the canonical component stops every track
of the current mode's stream, discards the held uploaded file, last recording
and transcription results, resets the status to idle and installs the new
mode; when the new mode is webcam it additionally performs exactly one eager
`getUserMedia` acquisition attempt (and none when it is upload). -/
theorem mode_switch_clears_and_reacquires (s : CompState) (m : InputMode)
    (o : AcquireOutcome) (hrec : s.status ≠ .recording)
    (hbound : s.mediaStream.all (fun i => decide (i < s.nextStreamId)) = true) :
    (VTT.handleModeChange m o s).inputMode = m ∧
    (VTT.handleModeChange m o s).status = .idle ∧
    (VTT.handleModeChange m o s).uploadedFile = none ∧
    (VTT.handleModeChange m o s).lastRecording = none ∧
    (VTT.handleModeChange m o s).transcription = "" ∧
    (VTT.handleModeChange m o s).whisperText = "" ∧
    VTT.prevStreamStopped s (VTT.handleModeChange m o s) = true ∧
    (VTT.handleModeChange m o s).acquireAttempts
        = (if m = .webcam then s.acquireAttempts + 1 else s.acquireAttempts) := by
  have hstop : VTT.prevStreamStopped s (VTT.handleModeChange m o s) = true := by
    cases hm : s.mediaStream with
    | none => simp [VTT.prevStreamStopped, hm]
    | some i =>
      have hi : i < s.nextStreamId := by
        rw [hm] at hbound
        simpa using hbound
      have hne : s.nextStreamId ≠ i := Nat.ne_of_gt hi
      cases m <;> cases o <;>
        simp [VTT.prevStreamStopped, hm, VTT.handleModeChange,
          VTT.modeSwitchCleanup, if_neg hrec, VTT.requestPermissions,
          VTT.stopMediaStream, all_bne_filter, bne_iff_ne, hne]
  refine ⟨?_, ?_, ?_, ?_, ?_, ?_, hstop, ?_⟩ <;>
    cases m <;> cases o <;>
      simp [VTT.handleModeChange, VTT.modeSwitchCleanup, if_neg hrec,
        VTT.requestPermissions, VTT.stopMediaStream]

/-- C7 (witness): the theorem applied to a concrete stopped webcam-mode state
switching to upload mode, and (separately instantiable) the webcam branch via
the same theorem; hypotheses discharged concretely. -/
theorem mode_switch_clears_and_reacquires_witness :
    (VTT.handleModeChange .upload .granted c1Start).inputMode = .upload ∧
    (VTT.handleModeChange .upload .granted c1Start).status = .idle ∧
    (VTT.handleModeChange .upload .granted c1Start).uploadedFile = none ∧
    (VTT.handleModeChange .upload .granted c1Start).lastRecording = none ∧
    (VTT.handleModeChange .upload .granted c1Start).transcription = "" ∧
    (VTT.handleModeChange .upload .granted c1Start).whisperText = "" ∧
    VTT.prevStreamStopped c1Start (VTT.handleModeChange .upload .granted c1Start)
        = true ∧
    (VTT.handleModeChange .upload .granted c1Start).acquireAttempts
        = (if InputMode.upload = .webcam then c1Start.acquireAttempts + 1
           else c1Start.acquireAttempts) :=
  mode_switch_clears_and_reacquires c1Start .upload .granted
    (by decide) (by decide)

/-- C3 (counterexample): `requestPermissions` of the plain recorder app
(`App.tsx`) does not release a previously held stream before acquiring: after
a second successful acquisition the first stream is still live — its tracks
were never stopped — so two acquired streams are unstopped at once, a
dangling stream, falsifying the claim for this cited implementation. -/
theorem recapp_acquire_leaves_dangling_stream :
    (RecApp.requestPermissions .granted RecApp.init).mediaStream = some 0 ∧
    (RecApp.requestPermissions .granted
        (RecApp.requestPermissions .granted RecApp.init)).mediaStream = some 1 ∧
    (RecApp.requestPermissions .granted
        (RecApp.requestPermissions .granted RecApp.init)).liveStreams = [1, 0] ∧
    2 ≤ (RecApp.requestPermissions .granted
        (RecApp.requestPermissions .granted RecApp.init)).liveStreams.length := by
  decide

/-- Releasing under the stream-lease invariant leaves no live stream. -/
theorem vtt_stop_live_nil (s : CompState) (h : VTT.Inv s) :
    (VTT.stopMediaStream s).liveStreams = [] := by
  rcases h with h | ⟨i, hm, hl⟩
  · cases hm : s.mediaStream <;> simp [VTT.stopMediaStream, hm, h]
  · simp [VTT.stopMediaStream, hm, hl]

/-- `stopMediaStream` preserves the stream-lease invariant. -/
theorem vtt_inv_stop (s : CompState) (h : VTT.Inv s) :
    VTT.Inv (VTT.stopMediaStream s) :=
  Or.inl (vtt_stop_live_nil s h)

/-- `requestPermissions` preserves the stream-lease invariant: it releases
first, so afterwards at most the freshly granted stream is live. -/
theorem vtt_inv_acquire (o : AcquireOutcome) (s : CompState) (h : VTT.Inv s) :
    VTT.Inv (VTT.requestPermissions o s) := by
  have hz := vtt_stop_live_nil s h
  cases o
  case granted =>
    right
    refine ⟨s.nextStreamId, rfl, ?_⟩
    show (VTT.stopMediaStream s).nextStreamId :: (VTT.stopMediaStream s).liveStreams
        = [s.nextStreamId]
    rw [hz]
    rfl
  case denied =>
    left
    exact hz

/-- The stream-lease invariant only depends on the live-stream list and the
held stream, so it transports along states agreeing on those fields. -/
theorem vtt_inv_transport (t u : CompState) (hl : t.liveStreams = u.liveStreams)
    (hm : t.mediaStream = u.mediaStream) (h : VTT.Inv u) : VTT.Inv t := by
  unfold VTT.Inv at h ⊢
  rw [hl, hm]
  exact h

/-- The mode-switch cleanup block preserves the stream-lease invariant. -/
theorem vtt_inv_cleanup (m : InputMode) (s : CompState) (h : VTT.Inv s) :
    VTT.Inv (VTT.modeSwitchCleanup m s) := by
  refine vtt_inv_transport _ (VTT.stopMediaStream { s with inputMode := m })
    rfl rfl ?_
  exact vtt_inv_stop _ (vtt_inv_transport _ s rfl rfl h)

/-- `handleModeChange` preserves the stream-lease invariant. -/
theorem vtt_inv_switch (m : InputMode) (o : AcquireOutcome) (s : CompState)
    (h : VTT.Inv s) : VTT.Inv (VTT.handleModeChange m o s) := by
  by_cases hr : s.status = .recording
  · simpa [VTT.handleModeChange, hr] using h
  · by_cases hw : m = .webcam
    · simpa [VTT.handleModeChange, hr, hw] using
        vtt_inv_acquire o _ (vtt_inv_cleanup m s h)
    · simpa [VTT.handleModeChange, hr, hw] using vtt_inv_cleanup m s h

/-- Every device-lease operation preserves the stream-lease invariant. -/
theorem vtt_inv_applyOp (s : CompState) (op : VTT.Op) (h : VTT.Inv s) :
    VTT.Inv (VTT.applyOp s op) := by
  cases op with
  | acquire o => exact vtt_inv_acquire o s h
  | release => exact vtt_inv_stop s h
  | modeSwitch m o => exact vtt_inv_switch m o s h

/-- The stream-lease invariant holds along any fold of device-lease
operations. -/
theorem vtt_inv_foldl (ops : List VTT.Op) :
    ∀ s : CompState, VTT.Inv s → VTT.Inv (ops.foldl VTT.applyOp s) := by
  induction ops with
  | nil => intro s h; exact h
  | cons op rest ih =>
    intro s h
    exact ih _ (vtt_inv_applyOp s op h)

/-- C3 (amended): in the canonical component, whose `requestPermissions`
releases any held stream before acquiring, after ANY sequence of acquire,
release and mode-switch operations at most one acquired stream is still
live, and every live stream is exactly the currently held one — every
previously active stream has had all of its tracks stopped. -/
theorem single_active_stream_after_any_ops (ops : List VTT.Op) :
    (VTT.run ops).liveStreams.length ≤ 1 ∧
    ∀ i ∈ (VTT.run ops).liveStreams, (VTT.run ops).mediaStream = some i := by
  have h : VTT.Inv (VTT.run ops) := vtt_inv_foldl ops VTT.init (Or.inl rfl)
  rcases h with h | ⟨i, hm, hl⟩
  · simp [h]
  · simp [hl, hm]
